import Mathlib

/-!
Verification development for the YouTube channel playlist fetcher
(`playlist_fetcher.py`).  The Python code is shallowly embedded: Python
strings become `List Char` (a Python `str` is a sequence of code points),
the external `yt-dlp` subprocess becomes an oracle in an `Env` record,
and each Python function becomes an executable Lean definition that
mirrors the source line by line.  The discovery routine additionally
threads a trace of the subprocess commands it issues, so that statements
about "which invocations happen" can be expressed; the untraced function
is the first projection of the traced one.
-/

set_option maxRecDepth 4000

/-- Python strings are sequences of code points. -/
abbrev PyStr := List Char

/-- A subprocess command: the full argument list handed to `subprocess.run`. -/
abbrev Cmd := List PyStr

/-- Convert a Lean string literal to the `List Char` representation. -/
def pys (s : String) : PyStr := s.toList

/-- Python `str.strip()` (whitespace stripped from both ends). -/
def pyStrip (l : PyStr) : PyStr :=
  ((l.dropWhile Char.isWhitespace).reverse.dropWhile Char.isWhitespace).reverse

/-- Worker for Python `str.split(sep)` with a non-empty separator `sep`:
splits at the non-overlapping occurrences of `sep`, scanning left to right.
`fuel` bounds the recursion (structural, so the kernel can evaluate it);
each step consumes at least one character, so `fuel = l.length` is always
enough and the fuel-exhausted case is only reached with `l = []`. -/
def pySplitAux (sep : PyStr) : Nat → PyStr → PyStr → List PyStr
  | 0, l, cur => [cur.reverse ++ l]
  | _ + 1, [], cur => [cur.reverse]
  | fuel + 1, c :: rest, cur =>
    if sep.isPrefixOf (c :: rest) then
      cur.reverse :: pySplitAux sep fuel ((c :: rest).drop sep.length) []
    else
      pySplitAux sep fuel rest (c :: cur)

/-- Python `l.split(sep)` for a non-empty separator (Python raises on an
empty separator; the program never uses one). -/
def pySplit (l : PyStr) (sep : PyStr) : List PyStr :=
  if sep.isEmpty then [l] else pySplitAux sep l.length l []

/-- Python `sub in s` (substring containment): `sub` is a prefix of some
suffix of `l`. -/
def pyContains : PyStr → PyStr → Bool
  | [], sub => sub.isEmpty
  | c :: rest, sub => sub.isPrefixOf (c :: rest) || pyContains rest sub

/-- Python `str.splitlines()` applied to tool output.  The program only
feeds it newline-separated text, so it is modelled as splitting on
the newline character. -/
def pySplitlines (l : PyStr) : List PyStr := pySplit l (pys "\n")

/-- Outcome of one `subprocess.run` call: a completed process with an exit
code and captured stdout, a `subprocess.TimeoutExpired`, or some other
exception raised by the invocation itself (e.g. `FileNotFoundError`). -/
inductive RunResult where
  | ok (returncode : Int) (stdout : PyStr)
  | timeout
  | exn
deriving DecidableEq

/-- Result of `json.loads` on the first line of a `--dump-json` call in
`get_playlist_info`: a JSON object (with the fields the code reads), a
successfully decoded non-object value, or a `json.JSONDecodeError`. -/
inductive DumpDecode where
  | dictD (playlist_title : Option PyStr) (playlist_id : Option PyStr)
      (playlist_count : Option Int) (playlist_uploader : Option PyStr)
  | nondict
  | decodeErr

/-- The external world as seen by the program: the subprocess runner
(command and timeout to outcome), `os.path.exists`, `json.loads` on one
line of the `--dump-json --flat-playlist` fallback output (`none` covers
both a decode error and a decoded non-`dict`, which the code treats
identically; only string-valued fields are modelled, since those are the
ones the code reads), and `json.loads` on the first line of the
enrichment output. -/
structure Env where
  run : Cmd → Nat → RunResult
  pathExists : PyStr → Bool
  jsonDecode : PyStr → Option (List (PyStr × PyStr))
  dumpDecode : PyStr → DumpDecode

/-- `full_command = method.copy(); if cookies_path and os.path.exists(...):
extend(["--cookies", path]); append(url)` (lines 60-63, 112-114, 167-172). -/
def buildCommand (m : Cmd) (cookies : Option PyStr) (pathExists : PyStr → Bool)
    (url : PyStr) : Cmd :=
  (match cookies with
   | some p => if !p.isEmpty && pathExists p then m ++ [pys "--cookies", p] else m
   | none => m) ++ [url]

/-- Method A of the discovery fan-out (line 52). -/
def methodA : Cmd := [pys "yt-dlp", pys "--flat-playlist", pys "--print", pys "%(playlist_url)s"]

/-- Method B of the discovery fan-out (line 54). -/
def methodB : Cmd := [pys "yt-dlp", pys "--flat-playlist", pys "--print", pys "%(webpage_url)s"]

/-- Method C of the discovery fan-out (line 56). -/
def methodC : Cmd := [pys "yt-dlp", pys "--flat-playlist", pys "--print", pys "%(id)s"]

/-- The `methods` list of lines 50-57, in source order. -/
def methodsList : List Cmd := [methodA, methodB, methodC]

/-- The canonical playlist URL synthesized from an identifier
(lines 86, 93, 140). -/
def playlistUrlOf (listId : PyStr) : PyStr :=
  pys "https://www.youtube.com/playlist?list=" ++ listId

/-- `line.split("list=")[1].split("&")[0]` (line 92; also line 200). -/
def extractedListId (l : PyStr) : PyStr :=
  (pySplit ((pySplit l (pys "list=")).getD 1 []) (pys "&")).getD 0 []

/-- One iteration of the line loop of lines 76-94: strip the line, skip
empty and `"NA"` lines, then apply the three recognizer rules in source
order, adding at most one canonical URL to the accumulated set. -/
def processLine (acc : List PyStr) (rawLine : PyStr) : List PyStr :=
  let line := pyStrip rawLine
  if line.isEmpty || line == pys "NA" then acc
  else if pyContains line (pys "playlist?list=") then acc.insert line
  else if (pys "PL").isPrefixOf line && decide (line.length > 10) then
    acc.insert (playlistUrlOf line)
  else if pyContains line (pys "watch?v=") && pyContains line (pys "&list=") then
    if pyContains line (pys "list=") then acc.insert (playlistUrlOf (extractedListId line))
    else acc
  else acc

/-- Lines 72-94: if the run succeeded with non-empty output, feed every
line of `result.stdout.strip().splitlines()` through the recognizers. -/
def processStdout (acc : List PyStr) (stdout : PyStr) : List PyStr :=
  (pySplitlines (pyStrip stdout)).foldl processLine acc

/-- The inner `for method_command in methods` loop of lines 59-98, for one
URL variant.  Returns `(completed, accumulated set, trace of issued
commands)`; `completed = false` means a `TimeoutExpired` or other
exception escaped to the per-variant handler of lines 100-105 (which the
caller treats as "continue with the next URL variant").  The final
`if all_playlists: break` of lines 97-98 is the early exit on a non-empty
accumulated set. -/
def tryMethodsGo (env : Env) (cookies : Option PyStr) (url : PyStr) :
    List Cmd → List PyStr → List Cmd → Bool × List PyStr × List Cmd
  | [], acc, tr => (true, acc, tr)
  | m :: ms, acc, tr =>
    let cmd := buildCommand m cookies env.pathExists url
    match env.run cmd 60 with
    | .timeout => (false, acc, tr ++ [cmd])
    | .exn => (false, acc, tr ++ [cmd])
    | .ok rc stdout =>
      let acc' := if rc == 0 && !(pyStrip stdout).isEmpty then processStdout acc stdout else acc
      if !acc'.isEmpty then (true, acc', tr ++ [cmd])
      else tryMethodsGo env cookies url ms acc' (tr ++ [cmd])

/-- The outer `for url in channel_urls_to_try` loop of lines 47-105.  An
exception from a variant's method loop is caught and the loop continues
with the next variant, keeping the set accumulated so far. -/
def tryUrlsGo (env : Env) (cookies : Option PyStr) :
    List PyStr → List PyStr → List Cmd → List PyStr × List Cmd
  | [], acc, tr => (acc, tr)
  | url :: rest, acc, tr =>
    let r := tryMethodsGo env cookies url methodsList acc tr
    tryUrlsGo env cookies rest r.2.1 r.2.2

/-- One decoded record of the JSON fallback (lines 129-141): the three URL
fields checked for the canonical marker, then the `id` field checked for
a truthy value with the `"PL"` prefix. -/
def processJsonRecord (acc : List PyStr) (fields : List (PyStr × PyStr)) : List PyStr :=
  let acc := [pys "url", pys "webpage_url", pys "original_url"].foldl
    (fun acc field =>
      match fields.lookup field with
      | some v => if !v.isEmpty && pyContains v (pys "playlist?list=") then acc.insert v else acc
      | none => acc) acc
  match fields.lookup (pys "id") with
  | some v => if !v.isEmpty && (pys "PL").isPrefixOf v then acc.insert (playlistUrlOf v) else acc
  | none => acc

/-- One line of the fallback output (lines 125-143): decode it as JSON,
skipping lines that fail to decode or are not objects. -/
def processJsonLine (env : Env) (acc : List PyStr) (line : PyStr) : List PyStr :=
  match env.jsonDecode line with
  | some fields => processJsonRecord acc fields
  | none => acc

/-- Method 2 of lines 107-146: only when nothing was found, issue one
`--dump-json --flat-playlist` call against the playlists-page variant with
a 90-second timeout; exceptions are caught by the handler of lines
145-146. -/
def fallbackScan (env : Env) (cookies : Option PyStr) (channel_url : PyStr)
    (acc : List PyStr) (tr : List Cmd) : List PyStr × List Cmd :=
  if !acc.isEmpty then (acc, tr)
  else
    let cmd := buildCommand [pys "yt-dlp", pys "--dump-json", pys "--flat-playlist"]
      cookies env.pathExists (channel_url ++ pys "/playlists")
    match env.run cmd 90 with
    | .timeout => (acc, tr ++ [cmd])
    | .exn => (acc, tr ++ [cmd])
    | .ok rc stdout =>
      let acc' := if rc == 0 && !(pyStrip stdout).isEmpty then
          (pySplitlines (pyStrip stdout)).foldl (processJsonLine env) acc
        else acc
      (acc', tr ++ [cmd])

/-- The final validity filter of lines 148-154: keep only truthy URLs that
contain the canonical marker and do not end with `"NA"`; the result is a
duplicate-free list. -/
def filterValid (acc : List PyStr) : List PyStr :=
  acc.foldl
    (fun v url =>
      if !url.isEmpty && pyContains url (pys "playlist?list=") && !((pys "NA").isSuffixOf url)
      then v.insert url else v) []

/-- `channel_urls_to_try` of lines 41-45. -/
def channelUrlsToTry (channel_url : PyStr) : List PyStr :=
  [channel_url ++ pys "/playlists", channel_url ++ pys "/videos", channel_url]

/-- `extract_channel_playlists` with an instrumented trace of every
subprocess command issued, in order. -/
def extractT (env : Env) (channel_url : PyStr) (cookies : Option PyStr) :
    List PyStr × List Cmd :=
  let r := tryUrlsGo env cookies (channelUrlsToTry channel_url) [] []
  let r2 := fallbackScan env cookies channel_url r.1 r.2
  (filterValid r2.1, r2.2)

/-- `extract_channel_playlists` (lines 24-154): the returned list of
playlist URLs. -/
def extract_channel_playlists (env : Env) (channel_url : PyStr)
    (cookies : Option PyStr) : List PyStr :=
  (extractT env channel_url cookies).1

/-- A playlist record as returned by `get_playlist_info` and consumed by
`save_playlist_links` (keys `title`, `id`, `video_count`, `uploader`,
`url`). -/
structure PlaylistRecord where
  title : PyStr
  id : PyStr
  video_count : Int
  uploader : PyStr
  url : PyStr
deriving DecidableEq

/-- The fallback `playlist_id` of lines 197-200: the `list=` parameter
parsed out of the URL itself, or empty when absent. -/
def urlListId (playlist_url : PyStr) : PyStr :=
  if pyContains playlist_url (pys "list=") then extractedListId playlist_url else []

/-- The fallback record of lines 202-208. -/
def fallbackRecord (playlist_url : PyStr) : PlaylistRecord :=
  ⟨pys "Unknown", urlListId playlist_url, 0, pys "Unknown", playlist_url⟩

/-- `get_playlist_info` (lines 156-208).  `check=True` turns a non-zero
exit into a `CalledProcessError`, which is caught along with
`JSONDecodeError` and `TimeoutExpired` (line 194); any other exception —
an invocation failure such as `FileNotFoundError`, or the
`AttributeError` raised by `.get` when the first line decodes to a
non-object — is not in the `except` tuple and propagates, modelled as
`Except.error`. -/
def get_playlist_info (env : Env) (playlist_url : PyStr) (cookies : Option PyStr) :
    Except Unit PlaylistRecord :=
  let command := buildCommand [pys "yt-dlp", pys "--flat-playlist", pys "--dump-json"]
    cookies env.pathExists playlist_url
  match env.run command 30 with
  | .timeout => .ok (fallbackRecord playlist_url)
  | .exn => .error ()
  | .ok rc stdout =>
    if rc != 0 then .ok (fallbackRecord playlist_url)
    else
      let first_line := (pySplit (pyStrip stdout) (pys "\n")).getD 0 []
      if !first_line.isEmpty then
        match env.dumpDecode first_line with
        | .decodeErr => .ok (fallbackRecord playlist_url)
        | .nondict => .error ()
        | .dictD t i n u =>
          .ok ⟨t.getD (pys "Unknown"), i.getD [], n.getD 0, u.getD (pys "Unknown"), playlist_url⟩
      else .ok (fallbackRecord playlist_url)

/-- Python `enumerate(xs, n)`. -/
def pyEnumerate (n : Nat) : List PlaylistRecord → List (Nat × PlaylistRecord)
  | [] => []
  | x :: xs => (n, x) :: pyEnumerate (n + 1) xs

/-- Decimal rendering of an integer, as Python `f"{n}"`. -/
def intStr (n : Int) : PyStr := (toString n).toList

/-- Decimal rendering of a natural number, as Python `f"{i}"`. -/
def natStr (n : Nat) : PyStr := (toString n).toList

/-- The numbered block written for one record (lines 222-228). -/
def recordBlock (i : Nat) (p : PlaylistRecord) : PyStr :=
  natStr i ++ pys ". " ++ p.title ++ pys "\n"
  ++ pys "   URL: " ++ p.url ++ pys "\n"
  ++ pys "   ID: " ++ p.id ++ pys "\n"
  ++ pys "   Videos: " ++ intStr p.video_count ++ pys "\n"
  ++ pys "   Uploader: " ++ p.uploader ++ pys "\n"
  ++ List.replicate 40 '-' ++ pys "\n"

/-- The header written at lines 219-220. -/
def reportHeader (timestamp : PyStr) : PyStr :=
  pys "YouTube Channel Playlists - Fetched on " ++ timestamp ++ pys "\n"
  ++ List.replicate 60 '=' ++ pys "\n\n"

/-- The section header written at lines 230-231. -/
def directLinksHeader : PyStr :=
  pys "\nDirect Links Only:\n" ++ List.replicate 20 '=' ++ pys "\n"

/-- `save_playlist_links` (lines 210-233), modelled as the file content it
writes (`f.write` appends, so the two loops are sequential folds over the
records; directory creation and the file handle itself are I/O glue and
are not modelled). -/
def save_playlist_links (playlists_info : List PlaylistRecord) (timestamp : PyStr) : PyStr :=
  let afterBlocks := (pyEnumerate 1 playlists_info).foldl
    (fun s ip => s ++ recordBlock ip.1 ip.2) (reportHeader timestamp)
  playlists_info.foldl (fun s p => s ++ (p.url ++ pys "\n")) (afterBlocks ++ directLinksHeader)

/-- Everything after the first occurrence of `sep` in `l` (empty when
`sep` does not occur): split at every occurrence and glue the pieces
after the first one back together with `sep`. -/
def afterFirst (l sep : PyStr) : PyStr :=
  match pySplit l sep with
  | [] => []
  | [_] => []
  | _ :: rest => List.intercalate sep rest

/-- Modelled from the spec: the identifier the spec says is extracted from
a watch-page line (and from the URL in the enrichment fallback) — "the
substring between `list=` and the next `&` (or the end of the string)". -/
def specListId (l : PyStr) : PyStr :=
  (afterFirst l (pys "list=")).takeWhile (fun c => c != '&')

/-- Elements produced by the guarded-insert fold satisfy the guard unless
they were already in the initial accumulator. -/
theorem foldl_insertIf_mem (P : PyStr → Bool) :
    ∀ (l init : List PyStr) (u : PyStr),
      u ∈ l.foldl (fun v x => if P x then v.insert x else v) init →
      u ∈ init ∨ P u = true := by
  intro l
  induction l with
  | nil => intro init u h; exact Or.inl h
  | cons x xs ih =>
    intro init u h
    rw [List.foldl_cons] at h
    rcases ih _ u h with h2 | h2
    · by_cases hp : P x = true
      · rw [if_pos hp] at h2
        rcases List.mem_insert_iff.mp h2 with rfl | h3
        · exact Or.inr hp
        · exact Or.inl h3
      · rw [if_neg hp] at h2
        exact Or.inl h2
    · exact Or.inr h2

/-- Inserting into a duplicate-free list keeps it duplicate-free. -/
theorem nodup_insertPy (a : PyStr) (l : List PyStr) (h : l.Nodup) : (l.insert a).Nodup := by
  by_cases hm : a ∈ l
  · rw [List.insert_of_mem hm]; exact h
  · rw [List.insert_of_not_mem hm]; exact List.nodup_cons.mpr ⟨hm, h⟩

/-- The guarded-insert fold preserves freedom from duplicates. -/
theorem foldl_insertIf_nodup (P : PyStr → Bool) :
    ∀ (l init : List PyStr), init.Nodup →
      (l.foldl (fun v x => if P x then v.insert x else v) init).Nodup := by
  intro l
  induction l with
  | nil => intro init h; exact h
  | cons x xs ih =>
    intro init h
    rw [List.foldl_cons]
    apply ih
    by_cases hp : P x = true
    · rw [if_pos hp]; exact nodup_insertPy x init h
    · rw [if_neg hp]; exact h

/-- Every element surviving the final validity filter contains the
canonical marker and does not end with `"NA"`. -/
theorem mem_filterValid (acc : List PyStr) (u : PyStr) (h : u ∈ filterValid acc) :
    pyContains u (pys "playlist?list=") = true ∧ (pys "NA").isSuffixOf u = false := by
  unfold filterValid at h
  rcases foldl_insertIf_mem _ _ _ _ h with h2 | h2
  · cases h2
  · simp only [Bool.and_eq_true, Bool.not_eq_true'] at h2
    exact ⟨h2.1.2, h2.2⟩

/-- The validity filter produces a duplicate-free list. -/
theorem filterValid_nodup (acc : List PyStr) : (filterValid acc).Nodup :=
  foldl_insertIf_nodup _ _ _ List.nodup_nil

/-- Claim C3: every URL returned by `extract_channel_playlists`, for every
environment (hence every possible set of subprocess outputs), contains
the canonical marker `"playlist?list="` and does not end with `"NA"`. -/
theorem c3_returned_urls_valid (env : Env) (channel_url : PyStr) (cookies : Option PyStr)
    (u : PyStr) (h : u ∈ extract_channel_playlists env channel_url cookies) :
    pyContains u (pys "playlist?list=") = true ∧ (pys "NA").isSuffixOf u = false :=
  mem_filterValid _ u h

/-- Claim C4: for every environment the returned list is duplicate-free
(accumulation is an idempotent union), and a raw output line matching
none of the three recognizer rules leaves the accumulated set unchanged. -/
theorem c4_nodup_and_unrecognized_lines_inert :
    (∀ (env : Env) (channel_url : PyStr) (cookies : Option PyStr),
      (extract_channel_playlists env channel_url cookies).Nodup)
    ∧ (∀ (acc : List PyStr) (line : PyStr),
      pyContains (pyStrip line) (pys "playlist?list=") = false →
      ((pys "PL").isPrefixOf (pyStrip line) && decide ((pyStrip line).length > 10)) = false →
      (pyContains (pyStrip line) (pys "watch?v=") && pyContains (pyStrip line) (pys "&list=")) = false →
      processLine acc line = acc) := by
  constructor
  · intro env channel_url cookies
    exact filterValid_nodup _
  · intro acc line h1 h2 h3
    simp only [processLine, h1, h2, h3, Bool.false_eq_true, if_false]
    split <;> rfl

/-- Inserting an element never removes existing elements. -/
theorem subset_insertPy (a : PyStr) (l : List PyStr) : l ⊆ l.insert a := by
  by_cases hm : a ∈ l
  · rw [List.insert_of_mem hm]; exact fun _ h => h
  · rw [List.insert_of_not_mem hm]; exact List.subset_cons_self a l

/-- One line of recognizer processing never removes accumulated URLs. -/
theorem processLine_subset (acc : List PyStr) (x : PyStr) : acc ⊆ processLine acc x := by
  unfold processLine
  dsimp only
  repeat' split
  all_goals first
    | exact fun _ h => h
    | exact subset_insertPy _ _

/-- Folding recognizer processing over lines never removes accumulated URLs. -/
theorem foldl_processLine_subset :
    ∀ (lines : List PyStr) (acc : List PyStr), acc ⊆ lines.foldl processLine acc := by
  intro lines
  induction lines with
  | nil => intro acc; exact fun _ h => h
  | cons x xs ih => intro acc; rw [List.foldl_cons]; exact fun u hu => ih _ (processLine_subset _ _ hu)

/-- Processing one stdout never removes accumulated URLs. -/
theorem processStdout_subset (acc : List PyStr) (so : PyStr) : acc ⊆ processStdout acc so :=
  foldl_processLine_subset _ _

/-- Processing one stdout keeps a non-empty accumulator non-empty. -/
theorem processStdout_ne_nil (acc : List PyStr) (so : PyStr) (h : acc ≠ []) :
    processStdout acc so ≠ [] := by
  obtain ⟨x, hx⟩ := List.exists_mem_of_ne_nil acc h
  exact List.ne_nil_of_mem (processStdout_subset acc so hx)

/-- The environment exhibiting the C1 divergence: the first-strategy probe
of the playlists page yields one playlist, and the first-strategy probe of
the videos page yields a second, different playlist; everything else exits
non-zero. -/
def envC1 : Env :=
  ⟨fun cmd _ =>
    if cmd == methodA ++ [pys "https://c/playlists"] then
      .ok 0 (pys "https://www.youtube.com/playlist?list=PLaaa1234567")
    else if cmd == methodA ++ [pys "https://c/videos"] then
      .ok 0 (pys "https://www.youtube.com/playlist?list=PLbbb1234567")
    else .ok 1 [],
   fun _ => false, fun _ => none, fun _ => .decodeErr⟩

/-- Claim C1 counterexample: in `envC1` the very first invocation already
accumulates an accepted playlist URL, yet the trace shows two further
subprocess invocations (the first-strategy probe of each remaining URL
variant), and the second of them even contributes another URL to the
result — so discovery does not stop invoking subprocesses once a playlist
has been accepted. -/
theorem c1_counterexample :
    extract_channel_playlists envC1 (pys "https://c") none
      = [playlistUrlOf (pys "PLaaa1234567"), playlistUrlOf (pys "PLbbb1234567")]
    ∧ (extractT envC1 (pys "https://c") none).2
      = [buildCommand methodA none envC1.pathExists (pys "https://c/playlists"),
         buildCommand methodA none envC1.pathExists (pys "https://c/videos"),
         buildCommand methodA none envC1.pathExists (pys "https://c")] := by
  exact ⟨by decide, by decide⟩

/-- Claim C1 (amended): once the accumulated set is non-empty, a URL
variant's method loop performs exactly one further subprocess invocation —
the first format strategy — and then stops (strategies B and C are
skipped), keeping every URL accumulated so far; remaining URL variants are
still probed this way rather than skipped. -/
theorem c1_amended_one_probe_per_remaining_variant (env : Env) (cookies : Option PyStr)
    (url : PyStr) (acc : List PyStr) (tr : List Cmd) (h : acc ≠ []) :
    (tryMethodsGo env cookies url methodsList acc tr).2.2
        = tr ++ [buildCommand methodA cookies env.pathExists url]
    ∧ acc ⊆ (tryMethodsGo env cookies url methodsList acc tr).2.1 := by
  rw [methodsList]
  cases hr : env.run (buildCommand methodA cookies env.pathExists url) 60 with
  | timeout => simp [tryMethodsGo, hr]
  | exn => simp [tryMethodsGo, hr]
  | ok rc so =>
    simp only [tryMethodsGo, hr]
    have hsub : acc ⊆ if rc == 0 && !(pyStrip so).isEmpty then processStdout acc so else acc := by
      split
      · exact processStdout_subset acc so
      · exact fun _ h => h
    have hne : (if rc == 0 && !(pyStrip so).isEmpty then processStdout acc so else acc) ≠ [] := by
      split
      · exact processStdout_ne_nil acc so h
      · exact h
    have hemp : (if rc == 0 && !(pyStrip so).isEmpty then processStdout acc so else acc).isEmpty
        = false := by
      cases he : (if rc == 0 && !(pyStrip so).isEmpty then processStdout acc so else acc).isEmpty
      · rfl
      · exact absurd (List.isEmpty_iff.mp he) hne
    simp only [hemp, Bool.not_false, if_true]
    exact ⟨trivial, hsub⟩

/-- Witness for the amended C1 theorem at a concrete non-empty accumulator. -/
theorem c1_amended_witness :
    (tryMethodsGo envC1 none (pys "https://c") methodsList [pys "x"] []).2.2
        = [] ++ [buildCommand methodA none envC1.pathExists (pys "https://c")]
    ∧ [pys "x"] ⊆ (tryMethodsGo envC1 none (pys "https://c") methodsList [pys "x"] []).2.1 :=
  c1_amended_one_probe_per_remaining_variant envC1 none (pys "https://c") [pys "x"] []
    (by decide)

/-- A timeout or invocation exception on a method aborts the whole method
loop of the current URL variant: only that method's command is issued, the
remaining methods are skipped, and the accumulator is untouched. -/
theorem tryMethodsGo_err (env : Env) (cookies : Option PyStr) (url : PyStr)
    (m : Cmd) (ms : List Cmd) (acc : List PyStr) (tr : List Cmd)
    (h : env.run (buildCommand m cookies env.pathExists url) 60 = .timeout ∨
         env.run (buildCommand m cookies env.pathExists url) 60 = .exn) :
    tryMethodsGo env cookies url (m :: ms) acc tr
      = (false, acc, tr ++ [buildCommand m cookies env.pathExists url]) := by
  rcases h with h | h <;> simp [tryMethodsGo, h]

/-- The environment exhibiting the C2 divergence: the first-strategy probe
of the playlists page times out, while the second strategy on the very
same page would return a playlist; everything else exits non-zero. -/
def envC2 : Env :=
  ⟨fun cmd _ =>
    if cmd == methodA ++ [pys "https://c/playlists"] then .timeout
    else if cmd == methodB ++ [pys "https://c/playlists"] then
      .ok 0 (pys "https://www.youtube.com/playlist?list=PLccc1234567")
    else .ok 1 [],
   fun _ => false, fun _ => none, fun _ => .decodeErr⟩

/-- Claim C2 counterexample: in `envC2` the timeout of the first strategy
on the playlists page is not isolated to that single pair — the second
strategy on the same URL variant, which would have produced a playlist, is
never invoked (its command is absent from the trace) and discovery returns
nothing. -/
theorem c2_counterexample :
    extract_channel_playlists envC2 (pys "https://c") none = []
    ∧ envC2.run (methodB ++ [pys "https://c/playlists"]) 60
        = .ok 0 (pys "https://www.youtube.com/playlist?list=PLccc1234567")
    ∧ (methodB ++ [pys "https://c/playlists"]) ∉ (extractT envC2 (pys "https://c") none).2 := by
  exact ⟨by decide, by decide, by decide⟩

/-- Claim C2 (amended): a subprocess timeout or invocation error during one
(URL variant × format strategy) attempt is caught, but it aborts the
remaining format strategies of that URL variant; discovery then continues
with the remaining URL variants, keeping the accumulator, and the error is
never fatal to the overall discovery. -/
theorem c2_amended_error_skips_variant :
    (∀ (env : Env) (cookies : Option PyStr) (url : PyStr) (m : Cmd) (ms : List Cmd)
        (acc : List PyStr) (tr : List Cmd),
      (env.run (buildCommand m cookies env.pathExists url) 60 = .timeout ∨
       env.run (buildCommand m cookies env.pathExists url) 60 = .exn) →
      tryMethodsGo env cookies url (m :: ms) acc tr
        = (false, acc, tr ++ [buildCommand m cookies env.pathExists url]))
    ∧ (∀ (env : Env) (cookies : Option PyStr) (url : PyStr) (rest : List PyStr)
        (acc : List PyStr) (tr : List Cmd),
      (env.run (buildCommand methodA cookies env.pathExists url) 60 = .timeout ∨
       env.run (buildCommand methodA cookies env.pathExists url) 60 = .exn) →
      tryUrlsGo env cookies (url :: rest) acc tr
        = tryUrlsGo env cookies rest acc
            (tr ++ [buildCommand methodA cookies env.pathExists url])) := by
  constructor
  · exact tryMethodsGo_err
  · intro env cookies url rest acc tr h
    show tryUrlsGo env cookies rest
        (tryMethodsGo env cookies url methodsList acc tr).2.1
        (tryMethodsGo env cookies url methodsList acc tr).2.2 = _
    rw [methodsList, tryMethodsGo_err env cookies url methodA [methodB, methodC] acc tr h]

/-- An environment in which every invocation times out. -/
def envTO : Env :=
  ⟨fun _ _ => .timeout, fun _ => false, fun _ => none, fun _ => .decodeErr⟩

/-- Witness for the amended C2 theorem: a concrete timing-out environment. -/
theorem c2_amended_witness :
    tryUrlsGo envTO none [pys "https://c/playlists"] [] []
      = tryUrlsGo envTO none []
          [] ([] ++ [buildCommand methodA none envTO.pathExists (pys "https://c/playlists")]) :=
  c2_amended_error_skips_variant.2 envTO none (pys "https://c/playlists") [] [] []
    (Or.inl rfl)

/-- An environment in which every primary invocation prints one canonical
playlist URL. -/
def envOkOne : Env :=
  ⟨fun _ _ => .ok 0 (pys "https://www.youtube.com/playlist?list=PLabc1234567"),
   fun _ => false, fun _ => none, fun _ => .decodeErr⟩

/-- Witness for C3: the URL actually returned in `envOkOne` satisfies the
validity predicate. -/
theorem c3_witness :
    pyContains (pys "https://www.youtube.com/playlist?list=PLabc1234567")
        (pys "playlist?list=") = true
    ∧ (pys "NA").isSuffixOf (pys "https://www.youtube.com/playlist?list=PLabc1234567") = false :=
  c3_returned_urls_valid envOkOne (pys "https://c") none
    (pys "https://www.youtube.com/playlist?list=PLabc1234567") (by decide)

/-- Witness for C4 at a concrete environment and a concrete unrecognized
line. -/
theorem c4_witness :
    (extract_channel_playlists envOkOne (pys "https://c") none).Nodup
    ∧ processLine [pys "kept"] (pys "some random text") = [pys "kept"] :=
  ⟨c4_nodup_and_unrecognized_lines_inert.1 envOkOne (pys "https://c") none,
   c4_nodup_and_unrecognized_lines_inert.2 [pys "kept"] (pys "some random text")
     (by decide) (by decide) (by decide)⟩

/-- The single fallback output line of the C5 environment: a JSON object
whose `id` is `"PL1"` — a bare identifier of length 3. -/
def jsonLineC5 : PyStr := pys "\x7b\"id\": \"PL1\"\x7d"

/-- The environment exhibiting the C5 divergence: all nine primary probes
exit non-zero, and the JSON fallback emits one record whose `id` field is
the short identifier `"PL1"`. -/
def envC5 : Env :=
  ⟨fun cmd _ =>
    if cmd == [pys "yt-dlp", pys "--dump-json", pys "--flat-playlist", pys "https://c/playlists"]
    then .ok 0 jsonLineC5
    else .ok 1 [],
   fun _ => false,
   fun l => if l == jsonLineC5 then some [(pys "id", pys "PL1")] else none,
   fun _ => .decodeErr⟩

/-- Claim C5 counterexample: the JSON fallback accepts and synthesizes a
URL from the `id` `"PL1"`, whose length is not greater than 10 — so the
acceptance rule of the fallback path is not the same as the primary
path's (prefix `"PL"` and length > 10) rule. -/
theorem c5_counterexample :
    extract_channel_playlists envC5 (pys "https://c") none = [playlistUrlOf (pys "PL1")]
    ∧ (pys "PL1").length ≤ 10 := by
  exact ⟨by decide, by decide⟩

/-- Claim C5 (amended): in the primary path a bare line (one that is not
empty, not `"NA"`, and triggers neither the canonical-marker rule nor the
watch-page rule) is accepted and synthesized into a canonical URL exactly
when it starts with `"PL"` and has length strictly greater than 10; in
the JSON fallback path, a record's `id` field is accepted exactly when it
is non-empty and starts with `"PL"` — with no length requirement. -/
theorem c5_amended_bare_id_rules :
    (∀ (acc : List PyStr) (l : PyStr), pyStrip l = l →
      l.isEmpty = false → (l == pys "NA") = false →
      pyContains l (pys "playlist?list=") = false →
      (pyContains l (pys "watch?v=") && pyContains l (pys "&list=")) = false →
      processLine acc l
        = if (pys "PL").isPrefixOf l && decide (l.length > 10)
          then acc.insert (playlistUrlOf l) else acc)
    ∧ (∀ (acc : List PyStr) (fields : List (PyStr × PyStr)) (v : PyStr),
      fields.lookup (pys "url") = none →
      fields.lookup (pys "webpage_url") = none →
      fields.lookup (pys "original_url") = none →
      fields.lookup (pys "id") = some v →
      processJsonRecord acc fields
        = if !v.isEmpty && (pys "PL").isPrefixOf v
          then acc.insert (playlistUrlOf v) else acc) := by
  constructor
  · intro acc l hstrip hemp hna h1 h3
    unfold processLine
    dsimp only
    rw [hstrip, hemp, hna, h1, h3]
    simp
  · intro acc fields v hu hw ho hi
    unfold processJsonRecord
    simp only [List.foldl_cons, List.foldl_nil, hu, hw, ho, hi]

/-- Witness for the amended C5 theorem at concrete inputs. -/
theorem c5_amended_witness :
    (processLine [] (pys "PLabcdefghijk")
      = if (pys "PL").isPrefixOf (pys "PLabcdefghijk")
            && decide ((pys "PLabcdefghijk").length > 10)
        then ([] : List PyStr).insert (playlistUrlOf (pys "PLabcdefghijk")) else [])
    ∧ (processJsonRecord [] [(pys "id", pys "PL1")]
      = if !(pys "PL1").isEmpty && (pys "PL").isPrefixOf (pys "PL1")
        then ([] : List PyStr).insert (playlistUrlOf (pys "PL1")) else []) :=
  ⟨c5_amended_bare_id_rules.1 [] (pys "PLabcdefghijk") (by decide) (by decide) (by decide)
      (by decide) (by decide),
   c5_amended_bare_id_rules.2 [] [(pys "id", pys "PL1")] (pys "PL1") (by decide) (by decide)
      (by decide) (by decide)⟩

/-- The split worker never returns an empty list of pieces. -/
theorem pySplitAux_ne_nil (sep : PyStr) :
    ∀ (fuel : Nat) (l cur : PyStr), pySplitAux sep fuel l cur ≠ [] := by
  intro fuel
  induction fuel with
  | zero => intro l cur; simp [pySplitAux]
  | succ f ih =>
    intro l cur
    cases l with
    | nil => simp [pySplitAux]
    | cons c rest =>
      simp only [pySplitAux]
      split
      · simp
      · exact ih rest (c :: cur)

/-- `pySplit` never returns an empty list of pieces. -/
theorem pySplit_ne_nil (l sep : PyStr) : pySplit l sep ≠ [] := by
  unfold pySplit
  split
  · simp
  · exact pySplitAux_ne_nil sep l.length l []

/-- The first piece of a single-character split is the longest prefix free
of that character. -/
theorem pySplitAux_single_head (a : Char) :
    ∀ (fuel : Nat) (l cur : PyStr), l.length ≤ fuel →
      (pySplitAux [a] fuel l cur).getD 0 []
        = cur.reverse ++ l.takeWhile (fun c => c != a) := by
  intro fuel
  induction fuel with
  | zero =>
    intro l cur h
    have hl : l = [] := List.eq_nil_of_length_eq_zero (Nat.le_zero.mp h)
    subst hl
    simp [pySplitAux]
  | succ f ih =>
    intro l cur h
    cases l with
    | nil => simp [pySplitAux]
    | cons c rest =>
      simp only [pySplitAux]
      by_cases hc : c = a
      · subst hc
        have hp : ([c] : PyStr).isPrefixOf (c :: rest) = true := by
          simp [List.isPrefixOf]
        rw [hp]
        simp
      · have hp : ([a] : PyStr).isPrefixOf (c :: rest) = false := by
          simp [List.isPrefixOf]
          exact fun hh => hc hh.symm
        rw [hp]
        have hlen : rest.length ≤ f := by
          simp [List.length_cons] at h
          omega
        simp only [Bool.false_eq_true, if_false]
        rw [ih rest (c :: cur) hlen]
        simp [List.takeWhile_cons, hc]

/-- The first piece of `pySplit` by `"&"` is the prefix before the first
ampersand. -/
theorem pySplit_amp_head (x : PyStr) :
    (pySplit x (pys "&")).getD 0 [] = x.takeWhile (fun c => c != '&') := by
  have hsep : pys "&" = ['&'] := rfl
  rw [hsep]
  unfold pySplit
  simp only [List.isEmpty, Bool.false_eq_true, if_false]
  rw [pySplitAux_single_head '&' x.length x [] le_rfl]
  simp

/-- Code-side identifier extraction, in closed form: the piece of the line
between the first and second occurrences of `"list="`, truncated at the
first `"&"`. -/
theorem extractedListId_eq_takeWhile (l : PyStr) :
    extractedListId l
      = ((pySplit l (pys "list=")).getD 1 []).takeWhile (fun c => c != '&') := by
  unfold extractedListId
  rw [pySplit_amp_head]

/-- A one-element intercalation is that element. -/
theorem intercalate_singletonPy (sep : PyStr) (b : PyStr) : List.intercalate sep [b] = b := by
  simp [List.intercalate]

/-- When `"list="` occurs at most once in the line, the code-side
extraction coincides with the spec-side extraction. -/
theorem extractedListId_spec_of_single (l : PyStr)
    (h : (pySplit l (pys "list=")).length ≤ 2) :
    extractedListId l = specListId l := by
  rcases hs : pySplit l (pys "list=") with _ | ⟨a, _ | ⟨b, _ | ⟨c, t⟩⟩⟩
  · exact absurd hs (pySplit_ne_nil l (pys "list="))
  · rw [extractedListId_eq_takeWhile, hs]
    unfold specListId afterFirst
    rw [hs]
    simp
  · rw [extractedListId_eq_takeWhile, hs]
    unfold specListId afterFirst
    rw [hs]
    simp [intercalate_singletonPy]
  · rw [hs] at h
    simp at h

/-- The watch-page line exhibiting the C6 divergence: it contains a second
occurrence of `"list="` (inside `"PLblist="`) before any following
ampersand. -/
def c6line : PyStr := pys "https://www.youtube.com/watch?v=a&list=PLblist=PLc12345"

/-- Claim C6 counterexample: on `c6line` — a watch-page line with an
embedded list parameter — discovery extracts `"PLb"` (truncating at the
second `"list="`), while the claim's "substring between `list=` and the
next `&` or end of string" is `"PLblist=PLc12345"`. -/
theorem c6_counterexample :
    pyContains c6line (pys "watch?v=") = true
    ∧ pyContains c6line (pys "&list=") = true
    ∧ processLine [] c6line = [playlistUrlOf (pys "PLb")]
    ∧ specListId c6line = pys "PLblist=PLc12345"
    ∧ (pys "PLb" : PyStr) ≠ pys "PLblist=PLc12345" := by
  exact ⟨by decide, by decide, by decide, by decide, by decide⟩

/-- Claim C6 (amended): the extracted identifier is the segment of the
line after the first `"list="` truncated both at the next occurrence of
`"list="` and at the first `"&"`; when the line contains at most one
occurrence of `"list="`, this is exactly the spec's "substring between
`list=` and the next `&` (or the end of the string)", and the claim's
example line yields `"PLfoo1234567"`. -/
theorem c6_amended_embedded_list_extraction :
    (∀ l : PyStr, (pySplit l (pys "list=")).length ≤ 2 →
      extractedListId l = specListId l)
    ∧ (∀ l : PyStr, extractedListId l
        = ((pySplit l (pys "list=")).getD 1 []).takeWhile (fun c => c != '&'))
    ∧ processLine [] (pys "https://www.youtube.com/watch?v=abc123&list=PLfoo1234567&index=3")
        = [playlistUrlOf (pys "PLfoo1234567")] :=
  ⟨extractedListId_spec_of_single, extractedListId_eq_takeWhile, by decide⟩

/-- Witness for the amended C6 theorem on a line with a single `"list="`. -/
theorem c6_amended_witness :
    extractedListId (pys "https://www.youtube.com/watch?v=z&list=PLx1234567890&index=2")
      = specListId (pys "https://www.youtube.com/watch?v=z&list=PLx1234567890&index=2") :=
  c6_amended_embedded_list_extraction.1
    (pys "https://www.youtube.com/watch?v=z&list=PLx1234567890&index=2") (by decide)

/-- An environment in which every invocation raises an exception that is
not `CalledProcessError`, `JSONDecodeError` or `TimeoutExpired` (for
example `FileNotFoundError` when the tool binary is missing). -/
def envExn : Env :=
  ⟨fun _ _ => .exn, fun _ => false, fun _ => none, fun _ => .decodeErr⟩

/-- Claim C7 counterexample: (a) an invocation failure outside the caught
exception tuple propagates out of `get_playlist_info`, so the function
does not "never raise past its own boundary"; (b) on a permanently
timing-out URL containing two occurrences of `"list="`, the fallback id
is `"PLa"` — the segment before the second `"list="` — not the claim's
"value following `list=` up to the next `&`", which is
`"PLalist=PLb"`. -/
theorem c7_counterexample :
    get_playlist_info envExn (pys "https://www.youtube.com/playlist?list=PLabc1234567") none
      = .error ()
    ∧ get_playlist_info envTO (pys "https://www.youtube.com/playlist?list=PLalist=PLb") none
      = .ok ⟨pys "Unknown", pys "PLa", 0, pys "Unknown",
             pys "https://www.youtube.com/playlist?list=PLalist=PLb"⟩
    ∧ specListId (pys "https://www.youtube.com/playlist?list=PLalist=PLb") = pys "PLalist=PLb"
    ∧ (pys "PLa" : PyStr) ≠ pys "PLalist=PLb" :=
  ⟨rfl, rfl, by decide, by decide⟩

/-- Claim C7 (amended): enrichment catches a timeout, a non-zero exit, and
a first line that fails JSON decoding (or is empty), returning the
locally-derived fallback record — title and uploader `"Unknown"`, count 0,
and id the segment of the URL after the first `"list="` truncated at the
next `"list="` or `"&"` (empty when the URL has no `"list="`); it can
raise past its boundary only when the invocation itself raises an
uncaught exception or the first line decodes to a non-object. -/
theorem c7_amended_fallback_and_raises :
    (∀ (env : Env) (url : PyStr) (ck : Option PyStr),
      env.run (buildCommand [pys "yt-dlp", pys "--flat-playlist", pys "--dump-json"]
        ck env.pathExists url) 30 = .timeout →
      get_playlist_info env url ck = .ok (fallbackRecord url))
    ∧ (∀ (env : Env) (url : PyStr) (ck : Option PyStr) (rc : Int) (so : PyStr),
      env.run (buildCommand [pys "yt-dlp", pys "--flat-playlist", pys "--dump-json"]
        ck env.pathExists url) 30 = .ok rc so → (rc != 0) = true →
      get_playlist_info env url ck = .ok (fallbackRecord url))
    ∧ (∀ (env : Env) (url : PyStr) (ck : Option PyStr) (so : PyStr),
      env.run (buildCommand [pys "yt-dlp", pys "--flat-playlist", pys "--dump-json"]
        ck env.pathExists url) 30 = .ok 0 so →
      env.dumpDecode ((pySplit (pyStrip so) (pys "\n")).getD 0 []) = .decodeErr →
      get_playlist_info env url ck = .ok (fallbackRecord url))
    ∧ (∀ (env : Env) (url : PyStr) (ck : Option PyStr),
      get_playlist_info env url ck = .error () →
      env.run (buildCommand [pys "yt-dlp", pys "--flat-playlist", pys "--dump-json"]
        ck env.pathExists url) 30 = .exn
      ∨ ∃ so, env.run (buildCommand [pys "yt-dlp", pys "--flat-playlist", pys "--dump-json"]
          ck env.pathExists url) 30 = .ok 0 so
        ∧ env.dumpDecode ((pySplit (pyStrip so) (pys "\n")).getD 0 []) = .nondict)
    ∧ (∀ url : PyStr, pyContains url (pys "list=") = true →
      (fallbackRecord url).id
        = ((pySplit url (pys "list=")).getD 1 []).takeWhile (fun c => c != '&'))
    ∧ (∀ url : PyStr, pyContains url (pys "list=") = false →
      (fallbackRecord url).id = []) := by
  refine ⟨?_, ?_, ?_, ?_, ?_, ?_⟩
  · intro env url ck h
    unfold get_playlist_info
    dsimp only
    rw [h]
  · intro env url ck rc so h hrc
    unfold get_playlist_info
    dsimp only
    rw [h]
    dsimp only
    rw [hrc]
    rfl
  · intro env url ck so h hdec
    unfold get_playlist_info
    dsimp only
    rw [h]
    dsimp only
    simp only [bne_self_eq_false, Bool.false_eq_true, if_false]
    split
    · rw [hdec]
    · rfl
  · intro env url ck h
    unfold get_playlist_info at h
    dsimp only at h
    cases hr : env.run (buildCommand [pys "yt-dlp", pys "--flat-playlist", pys "--dump-json"]
        ck env.pathExists url) 30 with
    | timeout => rw [hr] at h; exact Except.noConfusion h
    | exn => exact Or.inl rfl
    | ok rc so =>
      rw [hr] at h
      dsimp only at h
      by_cases hrc : (rc != 0) = true
      · rw [if_pos hrc] at h; exact Except.noConfusion h
      · rw [if_neg hrc] at h
        have hrc0 : rc = 0 := by simpa [bne_iff_ne] using hrc
        subst hrc0
        by_cases hfl : (!((pySplit (pyStrip so) (pys "\n")).getD 0 []).isEmpty) = true
        · rw [if_pos hfl] at h
          cases hd : env.dumpDecode ((pySplit (pyStrip so) (pys "\n")).getD 0 []) with
          | dictD t i n u => rw [hd] at h; exact Except.noConfusion h
          | nondict => exact Or.inr ⟨so, rfl, hd⟩
          | decodeErr => rw [hd] at h; exact Except.noConfusion h
        · rw [if_neg hfl] at h
          exact Except.noConfusion h
  · intro url h
    show urlListId url = _
    unfold urlListId
    rw [h]
    simp only [if_true]
    exact extractedListId_eq_takeWhile url
  · intro url h
    show urlListId url = _
    unfold urlListId
    rw [h]
    rfl

/-- Witness for the amended C7 theorem: the always-timing-out environment
yields the fallback record. -/
theorem c7_amended_witness :
    get_playlist_info envTO (pys "https://www.youtube.com/playlist?list=PLq1234567890") none
      = .ok (fallbackRecord (pys "https://www.youtube.com/playlist?list=PLq1234567890")) :=
  c7_amended_fallback_and_raises.1 envTO
    (pys "https://www.youtube.com/playlist?list=PLq1234567890") none rfl

/-- Claim C8: when enrichment decodes the first output line as a record
with no `playlist_title` and no `playlist_uploader` fields but a provided
`playlist_count`, the result has title `"Unknown"`, uploader `"Unknown"`,
and the provided count preserved (the whole record is pinned, so the
count `n` is visibly carried through). -/
theorem c8_missing_fields_default (env : Env) (url : PyStr) (ck : Option PyStr)
    (so : PyStr) (i : Option PyStr) (n : Int)
    (h1 : env.run (buildCommand [pys "yt-dlp", pys "--flat-playlist", pys "--dump-json"]
            ck env.pathExists url) 30 = .ok 0 so)
    (h2 : env.dumpDecode ((pySplit (pyStrip so) (pys "\n")).getD 0 []) = .dictD none i (some n) none)
    (h3 : ((pySplit (pyStrip so) (pys "\n")).getD 0 []).isEmpty = false) :
    get_playlist_info env url ck
      = .ok ⟨pys "Unknown", i.getD [], n, pys "Unknown", url⟩ := by
  unfold get_playlist_info
  dsimp only
  rw [h1]
  dsimp only
  simp only [bne_self_eq_false, Bool.false_eq_true, if_false, h3, Bool.not_false, if_true, h2]
  rfl

/-- An environment whose enrichment call succeeds with a record that
provides only `playlist_id` and `playlist_count`. -/
def envDict : Env :=
  ⟨fun _ _ => .ok 0 (pys "x"), fun _ => false, fun _ => none,
   fun _ => .dictD none (some (pys "PLw")) (some 42) none⟩

/-- Witness for C8 at the concrete environment `envDict`. -/
theorem c8_witness :
    get_playlist_info envDict (pys "https://u") none
      = .ok ⟨pys "Unknown", (some (pys "PLw")).getD [], 42, pys "Unknown", pys "https://u"⟩ :=
  c8_missing_fields_default envDict (pys "https://u") none (pys "x") (some (pys "PLw")) 42
    rfl rfl (by decide)

/-- Claim C10: whatever the environment, whenever `get_playlist_info`
returns a record — through the successful-parse path or any fallback
path — its `url` field is exactly the input playlist URL. -/
theorem c10_url_preserved (env : Env) (url : PyStr) (ck : Option PyStr) (r : PlaylistRecord)
    (h : get_playlist_info env url ck = .ok r) : r.url = url := by
  unfold get_playlist_info at h
  dsimp only at h
  cases hr : env.run (buildCommand [pys "yt-dlp", pys "--flat-playlist", pys "--dump-json"]
      ck env.pathExists url) 30 with
  | timeout =>
    rw [hr] at h
    injection h with h2
    rw [← h2]
    rfl
  | exn =>
    rw [hr] at h
    exact Except.noConfusion h
  | ok rc so =>
    rw [hr] at h
    dsimp only at h
    by_cases hrc : (rc != 0) = true
    · rw [if_pos hrc] at h
      injection h with h2
      rw [← h2]
      rfl
    · rw [if_neg hrc] at h
      by_cases hfl : (!((pySplit (pyStrip so) (pys "\n")).getD 0 []).isEmpty) = true
      · rw [if_pos hfl] at h
        cases hd : env.dumpDecode ((pySplit (pyStrip so) (pys "\n")).getD 0 []) with
        | dictD t i n u =>
          rw [hd] at h
          injection h with h2
          rw [← h2]
        | nondict =>
          rw [hd] at h
          exact Except.noConfusion h
        | decodeErr =>
          rw [hd] at h
          injection h with h2
          rw [← h2]
          rfl
      · rw [if_neg hfl] at h
        injection h with h2
        rw [← h2]
        rfl

/-- Witness for C10 at the always-timing-out environment. -/
theorem c10_witness :
    (fallbackRecord (pys "https://www.youtube.com/playlist?list=PLz9876543210")).url
      = pys "https://www.youtube.com/playlist?list=PLz9876543210" :=
  c10_url_preserved envTO (pys "https://www.youtube.com/playlist?list=PLz9876543210") none
    (fallbackRecord (pys "https://www.youtube.com/playlist?list=PLz9876543210")) rfl

/-- A sequential fold of appended pieces is the initial string followed by
the concatenation of the pieces. -/
theorem foldl_append_eq_join {α : Type} (f : α → PyStr) :
    ∀ (l : List α) (init : PyStr),
      l.foldl (fun s x => s ++ f x) init = init ++ (l.map f).flatten := by
  intro l
  induction l with
  | nil => intro init; simp
  | cons x xs ih =>
    intro init
    rw [List.foldl_cons, ih]
    simp [List.append_assoc]

/-- Claim C9: on an empty record list the report is exactly the header
with the timestamp, the separator, and the `"Direct Links Only"` section
with no URLs; in general the report is the header, then one numbered
block per record in order, then the section header, then one bare URL
line per record. -/
theorem c9_report_shape :
    (∀ ts : PyStr, save_playlist_links [] ts
      = pys "YouTube Channel Playlists - Fetched on " ++ ts ++ pys "\n"
        ++ List.replicate 60 '=' ++ pys "\n\n"
        ++ (pys "\nDirect Links Only:\n" ++ List.replicate 20 '=' ++ pys "\n"))
    ∧ (∀ (ps : List PlaylistRecord) (ts : PyStr),
      save_playlist_links ps ts
        = reportHeader ts
          ++ ((pyEnumerate 1 ps).map (fun ip => recordBlock ip.1 ip.2)).flatten
          ++ directLinksHeader
          ++ (ps.map (fun p => p.url ++ pys "\n")).flatten) := by
  constructor
  · intro ts
    show save_playlist_links [] ts = _
    unfold save_playlist_links pyEnumerate reportHeader directLinksHeader
    simp [List.append_assoc]
  · intro ps ts
    unfold save_playlist_links
    dsimp only
    rw [foldl_append_eq_join, foldl_append_eq_join]
